import Mathlib

/-!
Verification of the 6-DOF robotic-arm torque calculator
(`performCalculations` in `lib/calculations.ts`), shallowly embedded over ℚ.
The embedding mirrors the TypeScript source: validation is a fail-fast chain
returning the source's error strings, and the six hand-expanded per-joint
torque/power blocks are transcribed literally.  Spec-side definitions
(the general per-joint formula, the ordered check list) are written from the
specification's words and proved equal to the code.
-/

namespace RoboArm

/-- Link record of the source: a solid cylinder of given length and radius. -/
structure Link where
  length : ℚ
  radius : ℚ
deriving DecidableEq, Inhabited, Repr

/-- Motor record of the source. -/
structure Motor where
  mass : ℚ
  bodyLength : ℚ
  pivotPosition : ℚ
  rpm : ℚ
  gearRatio : ℚ
  safetyFactor : ℚ
deriving DecidableEq, Inhabited, Repr

/-- InputData record of the source. -/
structure InputData where
  m_payload : ℚ
  density : ℚ
  links : List Link
  motors : List Motor
deriving DecidableEq, Inhabited, Repr

/-- MotorResult record of the source. -/
structure MotorResult where
  T_total : ℚ
  T_sf : ℚ
  T_before : ℚ
  T_before_sf : ℚ
  P : ℚ
  P_sf : ℚ
deriving DecidableEq, Inhabited, Repr

/-- Gravitational constant of the source, 9.80665. -/
def g : ℚ := 980665 / 100000

/-- Pi constant of the source, 3.141592653589793. -/
def pi : ℚ := 3141592653589793 / 1000000000000000

/-- Array access `links[i].length` of the source (the source only reads
indices 0..5 of a list whose length it has checked to be 6). -/
def Larr (ls : List Link) (i : Nat) : ℚ := (ls.getD i default).length

/-- Array access `r[i]` of the source. -/
def rarr (ls : List Link) (i : Nat) : ℚ := (ls.getD i default).radius

/-- Array access `m_motor[i]` of the source. -/
def mArr (ms : List Motor) (i : Nat) : ℚ := (ms.getD i default).mass

/-- Array access `a[i]` (motor body length) of the source. -/
def aArr (ms : List Motor) (i : Nat) : ℚ := (ms.getD i default).bodyLength

/-- Array access `M[i]` (motor pivot position) of the source. -/
def MArr (ms : List Motor) (i : Nat) : ℚ := (ms.getD i default).pivotPosition

/-- Array access `rpm[i]` of the source. -/
def rpmArr (ms : List Motor) (i : Nat) : ℚ := (ms.getD i default).rpm

/-- Array access `R[i]` (gear ratio) of the source. -/
def Rarr (ms : List Motor) (i : Nat) : ℚ := Motor.gearRatio (ms.getD i default)

/-- Array access `SF[i]` (safety factor) of the source. -/
def SFarr (ms : List Motor) (i : Nat) : ℚ := (ms.getD i default).safetyFactor

/-- Cumulative joint positions of the source: `S[0] = L[0]`,
`S[i] = S[i-1] + L[i]`. -/
def Sarr (ls : List Link) : Nat → ℚ
  | 0 => Larr ls 0
  | i + 1 => Sarr ls i + Larr ls (i + 1)

/-- Per-link weight of the source:
`W_L[i] = g * density * pi * r[i] ** 2 * L[i]`. -/
def W_L (density : ℚ) (ls : List Link) (i : Nat) : ℚ :=
  g * density * pi * (rarr ls i) ^ 2 * Larr ls i

/-- Per-motor weight of the source: `W_M[i] = g * m_motor[i]`. -/
def W_M (ms : List Motor) (i : Nat) : ℚ := g * mArr ms i

/-- Payload weight of the source: `W_P = g * m_payload`. -/
def W_P (m_payload : ℚ) : ℚ := g * m_payload

/-- The fail-fast per-index validation loop of the source
(`for (let i = 0; i < 6; i++) { ... }`): all eight checks of index `i`,
with the source's error strings. -/
def checkIndex (i : Nat) (l : Link) (m : Motor) : Option String :=
  if l.length ≤ 0 then some ("Link " ++ toString (i + 1) ++ " length must be positive")
  else if l.radius ≤ 0 then some ("Link " ++ toString (i + 1) ++ " radius must be positive")
  else if m.mass < 0 then some ("Motor " ++ toString (i + 1) ++ " mass cannot be negative")
  else if m.bodyLength < 0 then some ("Motor " ++ toString (i + 1) ++ " body length cannot be negative")
  else if m.pivotPosition < 0 then some ("Motor " ++ toString (i + 1) ++ " pivot position cannot be negative")
  else if m.rpm < 0 then some ("Motor " ++ toString (i + 1) ++ " RPM cannot be negative")
  else if Motor.gearRatio m < 0 then some ("Motor " ++ toString (i + 1) ++ " gear ratio cannot be negative")
  else if m.safetyFactor < 1 then some ("Motor " ++ toString (i + 1) ++ " safety factor must be at least 1")
  else none

/-- The source's validation loop over the six link/motor pairs, fail-fast:
first failing check wins. -/
def loopValidate : Nat → List Link → List Motor → Option String
  | i, l :: ls, m :: ms =>
    match checkIndex i l m with
    | some e => some e
    | none => loopValidate (i + 1) ls ms
  | _, _, _ => none

/-- The six hand-expanded per-joint blocks of the source, pushed in the
source's order: motor 6 first, motor 1 last. -/
def computeResults (d : InputData) : List MotorResult :=
  let T6_payload := W_P d.m_payload * (Sarr d.links 5 - MArr d.motors 5)
  let T6_L6 := W_L d.density d.links 5 * (Sarr d.links 5 - MArr d.motors 5 - Larr d.links 5 / 2)
  let T6_total := T6_payload + T6_L6
  let T6_sf := SFarr d.motors 5 * T6_total
  let T6_before := if Rarr d.motors 5 ≠ 0 then T6_total / Rarr d.motors 5 else 0
  let T6_before_sf := SFarr d.motors 5 * T6_before
  let P6 := if rpmArr d.motors 5 ≠ 0 then T6_before * rpmArr d.motors 5 * 1000 / 9550 else 0
  let P6_sf := SFarr d.motors 5 * P6
  let T5_payload := W_P d.m_payload * (Sarr d.links 5 - MArr d.motors 4)
  let T5_L6 := W_L d.density d.links 5 * (Sarr d.links 5 - MArr d.motors 4 - Larr d.links 5 / 2)
  let T5_M6 := W_M d.motors 5 * ((MArr d.motors 5 + aArr d.motors 5 / 2) - MArr d.motors 4)
  let T5_L5 := W_L d.density d.links 4 * (Sarr d.links 4 - MArr d.motors 4 - Larr d.links 4 / 2)
  let T5_total := T5_payload + T5_L6 + T5_M6 + T5_L5
  let T5_sf := SFarr d.motors 4 * T5_total
  let T5_before := if Rarr d.motors 4 ≠ 0 then T5_total / Rarr d.motors 4 else 0
  let T5_before_sf := SFarr d.motors 4 * T5_before
  let P5 := if rpmArr d.motors 4 ≠ 0 then T5_before * rpmArr d.motors 4 * 1000 / 9550 else 0
  let P5_sf := SFarr d.motors 4 * P5
  let T4_payload := W_P d.m_payload * (Sarr d.links 5 - MArr d.motors 3)
  let T4_L6 := W_L d.density d.links 5 * (Sarr d.links 5 - MArr d.motors 3 - Larr d.links 5 / 2)
  let T4_L5 := W_L d.density d.links 4 * (Sarr d.links 4 - MArr d.motors 3 - Larr d.links 4 / 2)
  let T4_M6 := W_M d.motors 5 * ((MArr d.motors 5 + aArr d.motors 5 / 2) - MArr d.motors 3)
  let T4_M5 := W_M d.motors 4 * ((MArr d.motors 4 + aArr d.motors 4 / 2) - MArr d.motors 3)
  let T4_L4 := W_L d.density d.links 3 * (Sarr d.links 3 - MArr d.motors 3 - Larr d.links 3 / 2)
  let T4_total := T4_payload + T4_L6 + T4_L5 + T4_M6 + T4_M5 + T4_L4
  let T4_sf := SFarr d.motors 3 * T4_total
  let T4_before := if Rarr d.motors 3 ≠ 0 then T4_total / Rarr d.motors 3 else 0
  let T4_before_sf := SFarr d.motors 3 * T4_before
  let P4 := if rpmArr d.motors 3 ≠ 0 then T4_before * rpmArr d.motors 3 * 1000 / 9550 else 0
  let P4_sf := SFarr d.motors 3 * P4
  let T3_payload := W_P d.m_payload * (Sarr d.links 5 - MArr d.motors 2)
  let T3_L6 := W_L d.density d.links 5 * (Sarr d.links 5 - MArr d.motors 2 - Larr d.links 5 / 2)
  let T3_L5 := W_L d.density d.links 4 * (Sarr d.links 4 - MArr d.motors 2 - Larr d.links 4 / 2)
  let T3_L4 := W_L d.density d.links 3 * (Sarr d.links 3 - MArr d.motors 2 - Larr d.links 3 / 2)
  let T3_M6 := W_M d.motors 5 * ((MArr d.motors 5 + aArr d.motors 5 / 2) - MArr d.motors 2)
  let T3_M5 := W_M d.motors 4 * ((MArr d.motors 4 + aArr d.motors 4 / 2) - MArr d.motors 2)
  let T3_M4 := W_M d.motors 3 * ((MArr d.motors 3 + aArr d.motors 3 / 2) - MArr d.motors 2)
  let T3_L3 := W_L d.density d.links 2 * (Sarr d.links 2 - MArr d.motors 2 - Larr d.links 2 / 2)
  let T3_total := T3_payload + T3_L6 + T3_L5 + T3_L4 + T3_M6 + T3_M5 + T3_M4 + T3_L3
  let T3_sf := SFarr d.motors 2 * T3_total
  let T3_before := if Rarr d.motors 2 ≠ 0 then T3_total / Rarr d.motors 2 else 0
  let T3_before_sf := SFarr d.motors 2 * T3_before
  let P3 := if rpmArr d.motors 2 ≠ 0 then T3_before * rpmArr d.motors 2 * 1000 / 9550 else 0
  let P3_sf := SFarr d.motors 2 * P3
  let T2_payload := W_P d.m_payload * (Sarr d.links 5 - MArr d.motors 1)
  let T2_L6 := W_L d.density d.links 5 * (Sarr d.links 5 - MArr d.motors 1 - Larr d.links 5 / 2)
  let T2_L5 := W_L d.density d.links 4 * (Sarr d.links 4 - MArr d.motors 1 - Larr d.links 4 / 2)
  let T2_L4 := W_L d.density d.links 3 * (Sarr d.links 3 - MArr d.motors 1 - Larr d.links 3 / 2)
  let T2_L3 := W_L d.density d.links 2 * (Sarr d.links 2 - MArr d.motors 1 - Larr d.links 2 / 2)
  let T2_L2 := W_L d.density d.links 1 * (Sarr d.links 1 - MArr d.motors 1 - Larr d.links 1 / 2)
  let T2_M6 := W_M d.motors 5 * ((MArr d.motors 5 + aArr d.motors 5 / 2) - MArr d.motors 1)
  let T2_M5 := W_M d.motors 4 * ((MArr d.motors 4 + aArr d.motors 4 / 2) - MArr d.motors 1)
  let T2_M4 := W_M d.motors 3 * ((MArr d.motors 3 + aArr d.motors 3 / 2) - MArr d.motors 1)
  let T2_M3 := W_M d.motors 2 * ((MArr d.motors 2 + aArr d.motors 2 / 2) - MArr d.motors 1)
  let T2_total := T2_payload + T2_L6 + T2_L5 + T2_L4 + T2_L3 + T2_L2 + T2_M6 + T2_M5 + T2_M4 + T2_M3
  let T2_sf := SFarr d.motors 1 * T2_total
  let T2_before := if Rarr d.motors 1 ≠ 0 then T2_total / Rarr d.motors 1 else 0
  let T2_before_sf := SFarr d.motors 1 * T2_before
  let P2 := if rpmArr d.motors 1 ≠ 0 then T2_before * rpmArr d.motors 1 * 1000 / 9550 else 0
  let P2_sf := SFarr d.motors 1 * P2
  let T1_payload := W_P d.m_payload * (Sarr d.links 5 - MArr d.motors 0)
  let T1_L6 := W_L d.density d.links 5 * (Sarr d.links 5 - MArr d.motors 0 - Larr d.links 5 / 2)
  let T1_L5 := W_L d.density d.links 4 * (Sarr d.links 4 - MArr d.motors 0 - Larr d.links 4 / 2)
  let T1_L4 := W_L d.density d.links 3 * (Sarr d.links 3 - MArr d.motors 0 - Larr d.links 3 / 2)
  let T1_L3 := W_L d.density d.links 2 * (Sarr d.links 2 - MArr d.motors 0 - Larr d.links 2 / 2)
  let T1_L2 := W_L d.density d.links 1 * (Sarr d.links 1 - MArr d.motors 0 - Larr d.links 1 / 2)
  let T1_L1 := W_L d.density d.links 0 * (Sarr d.links 0 - MArr d.motors 0 - Larr d.links 0 / 2)
  let T1_M6 := W_M d.motors 5 * ((MArr d.motors 5 + aArr d.motors 5 / 2) - MArr d.motors 0)
  let T1_M5 := W_M d.motors 4 * ((MArr d.motors 4 + aArr d.motors 4 / 2) - MArr d.motors 0)
  let T1_M4 := W_M d.motors 3 * ((MArr d.motors 3 + aArr d.motors 3 / 2) - MArr d.motors 0)
  let T1_M3 := W_M d.motors 2 * ((MArr d.motors 2 + aArr d.motors 2 / 2) - MArr d.motors 0)
  let T1_M2 := W_M d.motors 1 * ((MArr d.motors 1 + aArr d.motors 1 / 2) - MArr d.motors 0)
  let T1_total := T1_payload + T1_L6 + T1_L5 + T1_L4 + T1_L3 + T1_L2 + T1_L1 + T1_M6 + T1_M5 + T1_M4 + T1_M3 + T1_M2
  let T1_sf := SFarr d.motors 0 * T1_total
  let T1_before := if Rarr d.motors 0 ≠ 0 then T1_total / Rarr d.motors 0 else 0
  let T1_before_sf := SFarr d.motors 0 * T1_before
  let P1 := if rpmArr d.motors 0 ≠ 0 then T1_before * rpmArr d.motors 0 * 1000 / 9550 else 0
  let P1_sf := SFarr d.motors 0 * P1
  [⟨T6_total, T6_sf, T6_before, T6_before_sf, P6, P6_sf⟩,
   ⟨T5_total, T5_sf, T5_before, T5_before_sf, P5, P5_sf⟩,
   ⟨T4_total, T4_sf, T4_before, T4_before_sf, P4, P4_sf⟩,
   ⟨T3_total, T3_sf, T3_before, T3_before_sf, P3, P3_sf⟩,
   ⟨T2_total, T2_sf, T2_before, T2_before_sf, P2, P2_sf⟩,
   ⟨T1_total, T1_sf, T1_before, T1_before_sf, P1, P1_sf⟩]

/-- The exported entry point of the source.  The TypeScript function either
returns the results array or catches the thrown validation `Error` and
returns `{ error: message }`; embedded as `Except`. -/
def performCalculations (d : InputData) : Except String (List MotorResult) :=
  if d.m_payload < 0 then .error "Payload mass cannot be negative"
  else if d.density < 0 then .error "Density must be positive"
  else if d.links.length ≠ 6 then .error "Exactly 6 links are required"
  else if d.motors.length ≠ 6 then .error "Exactly 6 motors are required"
  else
    match loopValidate 0 d.links d.motors with
    | some e => .error e
    | none => .ok (computeResults d)

/-- Spec-side definition (refinement): the link contributions of spec step 5,
"for every link k ≥ j: W_link[k] · (S[k] - pivot[j] - length[k]/2)". -/
def sumLinks (ρ : ℚ) (ls : List Link) (ms : List Motor) (j : Nat) : ℚ :=
  (((List.range 6).filter (fun k => decide (j ≤ k))).map
    (fun k => W_L ρ ls k * (Sarr ls k - MArr ms j - Larr ls k / 2))).sum

/-- Spec-side definition (refinement): the motor contributions of spec step 5,
"for every motor k > j: W_motor[k] · (pivot[k] + bodyLength[k]/2 - pivot[j])". -/
def sumMotors (ms : List Motor) (j : Nat) : ℚ :=
  (((List.range 6).filter (fun k => decide (j < k))).map
    (fun k => W_M ms k * (MArr ms k + aArr ms k / 2 - MArr ms j))).sum

/-- Spec-side definition (refinement): the full static torque of spec step 5
about pivot j: payload + link + motor contributions. -/
def torqueTotalSpec (d : InputData) (j : Nat) : ℚ :=
  W_P d.m_payload * (Sarr d.links 5 - MArr d.motors j) +
    sumLinks d.density d.links d.motors j + sumMotors d.motors j

/-- Spec-side definition (refinement): the per-joint result of spec
steps 5-10 for joint index j. -/
def jointResult (d : InputData) (j : Nat) : MotorResult :=
  let T := torqueTotalSpec d j
  let Tb := if Rarr d.motors j ≠ 0 then T / Rarr d.motors j else 0
  let Pw := if rpmArr d.motors j ≠ 0 then Tb * rpmArr d.motors j * 1000 / 9550 else 0
  ⟨T, SFarr d.motors j * T, Tb, SFarr d.motors j * Tb, Pw, SFarr d.motors j * Pw⟩

/-- Spec-side definition (refinement): the 15-constraint validity predicate of
spec section 4.1, written as the spec enumerates it. -/
def validInput (d : InputData) : Prop :=
  0 ≤ d.m_payload ∧ 0 ≤ d.density ∧ d.links.length = 6 ∧ d.motors.length = 6 ∧
    ∀ i, i < 6 →
      0 < Larr d.links i ∧ 0 < rarr d.links i ∧ 0 ≤ mArr d.motors i ∧
      0 ≤ aArr d.motors i ∧ 0 ≤ MArr d.motors i ∧ 0 ≤ rpmArr d.motors i ∧
      0 ≤ Rarr d.motors i ∧ 1 ≤ SFarr d.motors i

instance validInputDecidable (d : InputData) : Decidable (validInput d) := by
  unfold validInput
  infer_instance

/-- Spec-side definition (refinement): the eight ordered checks of spec
validation item 5 for one index, as (passes, message) pairs. -/
def specIndexChecks (i : Nat) (l : Link) (m : Motor) : List (Bool × String) :=
  [(decide (0 < l.length), "Link " ++ toString (i + 1) ++ " length must be positive"),
   (decide (0 < l.radius), "Link " ++ toString (i + 1) ++ " radius must be positive"),
   (decide (0 ≤ m.mass), "Motor " ++ toString (i + 1) ++ " mass cannot be negative"),
   (decide (0 ≤ m.bodyLength), "Motor " ++ toString (i + 1) ++ " body length cannot be negative"),
   (decide (0 ≤ m.pivotPosition), "Motor " ++ toString (i + 1) ++ " pivot position cannot be negative"),
   (decide (0 ≤ m.rpm), "Motor " ++ toString (i + 1) ++ " RPM cannot be negative"),
   (decide (0 ≤ Motor.gearRatio m), "Motor " ++ toString (i + 1) ++ " gear ratio cannot be negative"),
   (decide (1 ≤ m.safetyFactor), "Motor " ++ toString (i + 1) ++ " safety factor must be at least 1")]

/-- Spec-side definition (refinement): validation item 5 iterated over the
link/motor pairs in index order. -/
def specLoopChecks : Nat → List Link → List Motor → List (Bool × String)
  | i, l :: ls, m :: ms => specIndexChecks i l m ++ specLoopChecks (i + 1) ls ms
  | _, _, _ => []

/-- Spec-side definition (refinement): the complete ordered check list of spec
section 4.1 (items 1-4 then item 5 over indices 0..5). -/
def specChecks (d : InputData) : List (Bool × String) :=
  [(decide (0 ≤ d.m_payload), "Payload mass cannot be negative"),
   (decide (0 ≤ d.density), "Density must be positive"),
   (decide (d.links.length = 6), "Exactly 6 links are required"),
   (decide (d.motors.length = 6), "Exactly 6 motors are required")] ++
    specLoopChecks 0 d.links d.motors

/-- First failing check of an ordered (passes, message) list, if any. -/
def firstFailure (cs : List (Bool × String)) : Option String :=
  (cs.find? (fun c => !c.1)).map (fun c => c.2)

/-- Whether the computation returned the error branch. -/
def isErr (r : Except String (List MotorResult)) : Bool :=
  match r with
  | .error _ => true
  | .ok _ => false

/-- The error message of a result, or the empty string on success. -/
def errMsgOf (r : Except String (List MotorResult)) : String :=
  match r with
  | .error m => m
  | .ok _ => ""

/-- Character-list test: does the second list start with the first? -/
def chStarts : List Char → List Char → Bool
  | [], _ => true
  | _ :: _, [] => false
  | a :: as, b :: bs => a == b && chStarts as bs

/-- Character-list test: does the first list occur contiguously inside the
second? -/
def chInfix (pat : List Char) : List Char → Bool
  | [] => chStarts pat []
  | b :: bs => chStarts pat (b :: bs) || chInfix pat bs

/-- Substring test: does `s` contain `pat` as a contiguous substring? -/
def strContains (s pat : String) : Bool := chInfix pat.data s.data

end RoboArm

namespace RoboArm

theorem torque_code_eq_spec_5 (d : InputData) :
    W_P d.m_payload * (Sarr d.links 5 - MArr d.motors 5) +
      W_L d.density d.links 5 * (Sarr d.links 5 - MArr d.motors 5 - Larr d.links 5 / 2) =
    torqueTotalSpec d 5 := by
  rw [torqueTotalSpec,
    show sumLinks d.density d.links d.motors 5 = W_L d.density d.links 5 * (Sarr d.links 5 - MArr d.motors 5 - Larr d.links 5 / 2) + 0 from rfl,
    show sumMotors d.motors 5 = 0 from rfl]
  ring

theorem torque_code_eq_spec_4 (d : InputData) :
    W_P d.m_payload * (Sarr d.links 5 - MArr d.motors 4) +
      W_L d.density d.links 5 * (Sarr d.links 5 - MArr d.motors 4 - Larr d.links 5 / 2) +
      W_M d.motors 5 * ((MArr d.motors 5 + aArr d.motors 5 / 2) - MArr d.motors 4) +
      W_L d.density d.links 4 * (Sarr d.links 4 - MArr d.motors 4 - Larr d.links 4 / 2) =
    torqueTotalSpec d 4 := by
  rw [torqueTotalSpec,
    show sumLinks d.density d.links d.motors 4 =
      W_L d.density d.links 4 * (Sarr d.links 4 - MArr d.motors 4 - Larr d.links 4 / 2) +
        (W_L d.density d.links 5 * (Sarr d.links 5 - MArr d.motors 4 - Larr d.links 5 / 2) + 0) from rfl,
    show sumMotors d.motors 4 =
      W_M d.motors 5 * (MArr d.motors 5 + aArr d.motors 5 / 2 - MArr d.motors 4) + 0 from rfl]
  ring

end RoboArm

namespace RoboArm

theorem torque_code_eq_spec_3 (d : InputData) :
    W_P d.m_payload * (Sarr d.links 5 - MArr d.motors 3) +
      W_L d.density d.links 5 * (Sarr d.links 5 - MArr d.motors 3 - Larr d.links 5 / 2) +
      W_L d.density d.links 4 * (Sarr d.links 4 - MArr d.motors 3 - Larr d.links 4 / 2) +
      W_M d.motors 5 * ((MArr d.motors 5 + aArr d.motors 5 / 2) - MArr d.motors 3) +
      W_M d.motors 4 * ((MArr d.motors 4 + aArr d.motors 4 / 2) - MArr d.motors 3) +
      W_L d.density d.links 3 * (Sarr d.links 3 - MArr d.motors 3 - Larr d.links 3 / 2) =
    torqueTotalSpec d 3 := by
  rw [torqueTotalSpec,
    show sumLinks d.density d.links d.motors 3 =
      W_L d.density d.links 3 * (Sarr d.links 3 - MArr d.motors 3 - Larr d.links 3 / 2) +
        (W_L d.density d.links 4 * (Sarr d.links 4 - MArr d.motors 3 - Larr d.links 4 / 2) +
          (W_L d.density d.links 5 * (Sarr d.links 5 - MArr d.motors 3 - Larr d.links 5 / 2) + 0)) from rfl,
    show sumMotors d.motors 3 =
      W_M d.motors 4 * (MArr d.motors 4 + aArr d.motors 4 / 2 - MArr d.motors 3) +
        (W_M d.motors 5 * (MArr d.motors 5 + aArr d.motors 5 / 2 - MArr d.motors 3) + 0) from rfl]
  ring

theorem torque_code_eq_spec_2 (d : InputData) :
    W_P d.m_payload * (Sarr d.links 5 - MArr d.motors 2) +
      W_L d.density d.links 5 * (Sarr d.links 5 - MArr d.motors 2 - Larr d.links 5 / 2) +
      W_L d.density d.links 4 * (Sarr d.links 4 - MArr d.motors 2 - Larr d.links 4 / 2) +
      W_L d.density d.links 3 * (Sarr d.links 3 - MArr d.motors 2 - Larr d.links 3 / 2) +
      W_M d.motors 5 * ((MArr d.motors 5 + aArr d.motors 5 / 2) - MArr d.motors 2) +
      W_M d.motors 4 * ((MArr d.motors 4 + aArr d.motors 4 / 2) - MArr d.motors 2) +
      W_M d.motors 3 * ((MArr d.motors 3 + aArr d.motors 3 / 2) - MArr d.motors 2) +
      W_L d.density d.links 2 * (Sarr d.links 2 - MArr d.motors 2 - Larr d.links 2 / 2) =
    torqueTotalSpec d 2 := by
  rw [torqueTotalSpec,
    show sumLinks d.density d.links d.motors 2 =
      W_L d.density d.links 2 * (Sarr d.links 2 - MArr d.motors 2 - Larr d.links 2 / 2) +
        (W_L d.density d.links 3 * (Sarr d.links 3 - MArr d.motors 2 - Larr d.links 3 / 2) +
          (W_L d.density d.links 4 * (Sarr d.links 4 - MArr d.motors 2 - Larr d.links 4 / 2) +
            (W_L d.density d.links 5 * (Sarr d.links 5 - MArr d.motors 2 - Larr d.links 5 / 2) + 0))) from rfl,
    show sumMotors d.motors 2 =
      W_M d.motors 3 * (MArr d.motors 3 + aArr d.motors 3 / 2 - MArr d.motors 2) +
        (W_M d.motors 4 * (MArr d.motors 4 + aArr d.motors 4 / 2 - MArr d.motors 2) +
          (W_M d.motors 5 * (MArr d.motors 5 + aArr d.motors 5 / 2 - MArr d.motors 2) + 0)) from rfl]
  ring

theorem torque_code_eq_spec_1 (d : InputData) :
    W_P d.m_payload * (Sarr d.links 5 - MArr d.motors 1) +
      W_L d.density d.links 5 * (Sarr d.links 5 - MArr d.motors 1 - Larr d.links 5 / 2) +
      W_L d.density d.links 4 * (Sarr d.links 4 - MArr d.motors 1 - Larr d.links 4 / 2) +
      W_L d.density d.links 3 * (Sarr d.links 3 - MArr d.motors 1 - Larr d.links 3 / 2) +
      W_L d.density d.links 2 * (Sarr d.links 2 - MArr d.motors 1 - Larr d.links 2 / 2) +
      W_L d.density d.links 1 * (Sarr d.links 1 - MArr d.motors 1 - Larr d.links 1 / 2) +
      W_M d.motors 5 * ((MArr d.motors 5 + aArr d.motors 5 / 2) - MArr d.motors 1) +
      W_M d.motors 4 * ((MArr d.motors 4 + aArr d.motors 4 / 2) - MArr d.motors 1) +
      W_M d.motors 3 * ((MArr d.motors 3 + aArr d.motors 3 / 2) - MArr d.motors 1) +
      W_M d.motors 2 * ((MArr d.motors 2 + aArr d.motors 2 / 2) - MArr d.motors 1) =
    torqueTotalSpec d 1 := by
  rw [torqueTotalSpec,
    show sumLinks d.density d.links d.motors 1 =
      W_L d.density d.links 1 * (Sarr d.links 1 - MArr d.motors 1 - Larr d.links 1 / 2) +
        (W_L d.density d.links 2 * (Sarr d.links 2 - MArr d.motors 1 - Larr d.links 2 / 2) +
          (W_L d.density d.links 3 * (Sarr d.links 3 - MArr d.motors 1 - Larr d.links 3 / 2) +
            (W_L d.density d.links 4 * (Sarr d.links 4 - MArr d.motors 1 - Larr d.links 4 / 2) +
              (W_L d.density d.links 5 * (Sarr d.links 5 - MArr d.motors 1 - Larr d.links 5 / 2) + 0)))) from rfl,
    show sumMotors d.motors 1 =
      W_M d.motors 2 * (MArr d.motors 2 + aArr d.motors 2 / 2 - MArr d.motors 1) +
        (W_M d.motors 3 * (MArr d.motors 3 + aArr d.motors 3 / 2 - MArr d.motors 1) +
          (W_M d.motors 4 * (MArr d.motors 4 + aArr d.motors 4 / 2 - MArr d.motors 1) +
            (W_M d.motors 5 * (MArr d.motors 5 + aArr d.motors 5 / 2 - MArr d.motors 1) + 0))) from rfl]
  ring

theorem torque_code_eq_spec_0 (d : InputData) :
    W_P d.m_payload * (Sarr d.links 5 - MArr d.motors 0) +
      W_L d.density d.links 5 * (Sarr d.links 5 - MArr d.motors 0 - Larr d.links 5 / 2) +
      W_L d.density d.links 4 * (Sarr d.links 4 - MArr d.motors 0 - Larr d.links 4 / 2) +
      W_L d.density d.links 3 * (Sarr d.links 3 - MArr d.motors 0 - Larr d.links 3 / 2) +
      W_L d.density d.links 2 * (Sarr d.links 2 - MArr d.motors 0 - Larr d.links 2 / 2) +
      W_L d.density d.links 1 * (Sarr d.links 1 - MArr d.motors 0 - Larr d.links 1 / 2) +
      W_L d.density d.links 0 * (Sarr d.links 0 - MArr d.motors 0 - Larr d.links 0 / 2) +
      W_M d.motors 5 * ((MArr d.motors 5 + aArr d.motors 5 / 2) - MArr d.motors 0) +
      W_M d.motors 4 * ((MArr d.motors 4 + aArr d.motors 4 / 2) - MArr d.motors 0) +
      W_M d.motors 3 * ((MArr d.motors 3 + aArr d.motors 3 / 2) - MArr d.motors 0) +
      W_M d.motors 2 * ((MArr d.motors 2 + aArr d.motors 2 / 2) - MArr d.motors 0) +
      W_M d.motors 1 * ((MArr d.motors 1 + aArr d.motors 1 / 2) - MArr d.motors 0) =
    torqueTotalSpec d 0 := by
  rw [torqueTotalSpec,
    show sumLinks d.density d.links d.motors 0 =
      W_L d.density d.links 0 * (Sarr d.links 0 - MArr d.motors 0 - Larr d.links 0 / 2) +
        (W_L d.density d.links 1 * (Sarr d.links 1 - MArr d.motors 0 - Larr d.links 1 / 2) +
          (W_L d.density d.links 2 * (Sarr d.links 2 - MArr d.motors 0 - Larr d.links 2 / 2) +
            (W_L d.density d.links 3 * (Sarr d.links 3 - MArr d.motors 0 - Larr d.links 3 / 2) +
              (W_L d.density d.links 4 * (Sarr d.links 4 - MArr d.motors 0 - Larr d.links 4 / 2) +
                (W_L d.density d.links 5 * (Sarr d.links 5 - MArr d.motors 0 - Larr d.links 5 / 2) + 0))))) from rfl,
    show sumMotors d.motors 0 =
      W_M d.motors 1 * (MArr d.motors 1 + aArr d.motors 1 / 2 - MArr d.motors 0) +
        (W_M d.motors 2 * (MArr d.motors 2 + aArr d.motors 2 / 2 - MArr d.motors 0) +
          (W_M d.motors 3 * (MArr d.motors 3 + aArr d.motors 3 / 2 - MArr d.motors 0) +
            (W_M d.motors 4 * (MArr d.motors 4 + aArr d.motors 4 / 2 - MArr d.motors 0) +
              (W_M d.motors 5 * (MArr d.motors 5 + aArr d.motors 5 / 2 - MArr d.motors 0) + 0)))) from rfl]
  ring

theorem computeResults_eq (d : InputData) :
    computeResults d =
      [jointResult d 5, jointResult d 4, jointResult d 3, jointResult d 2,
       jointResult d 1, jointResult d 0] := by
  simp only [computeResults, jointResult]
  rw [torque_code_eq_spec_5 d, torque_code_eq_spec_4 d, torque_code_eq_spec_3 d,
    torque_code_eq_spec_2 d, torque_code_eq_spec_1 d, torque_code_eq_spec_0 d]

end RoboArm

namespace RoboArm

theorem firstFailure_cons (p : Prop) [Decidable p] (msg : String) (rest : List (Bool × String)) :
    firstFailure ((decide p, msg) :: rest) = if p then firstFailure rest else some msg := by
  by_cases h : p <;> simp [firstFailure, List.find?, h]

theorem firstFailure_append (cs ds : List (Bool × String)) :
    firstFailure (cs ++ ds) = (firstFailure cs).orElse (fun _ => firstFailure ds) := by
  induction cs with
  | nil => rfl
  | cons c cs ih =>
    rcases c with ⟨b, m⟩
    cases b
    · simp [firstFailure, List.find?, Option.orElse]
    · simpa [firstFailure, List.find?, Option.orElse] using ih

theorem checkIndex_eq (i : Nat) (l : Link) (m : Motor) :
    checkIndex i l m = firstFailure (specIndexChecks i l m) := by
  simp only [checkIndex, specIndexChecks, firstFailure_cons]
  by_cases h1 : l.length ≤ 0
  · rw [if_pos h1, if_neg (not_lt.2 h1)]
  · rw [if_neg h1, if_pos (not_le.1 h1)]
    by_cases h2 : l.radius ≤ 0
    · rw [if_pos h2, if_neg (not_lt.2 h2)]
    · rw [if_neg h2, if_pos (not_le.1 h2)]
      by_cases h3 : m.mass < 0
      · rw [if_pos h3, if_neg (not_le.2 h3)]
      · rw [if_neg h3, if_pos (not_lt.1 h3)]
        by_cases h4 : m.bodyLength < 0
        · rw [if_pos h4, if_neg (not_le.2 h4)]
        · rw [if_neg h4, if_pos (not_lt.1 h4)]
          by_cases h5 : m.pivotPosition < 0
          · rw [if_pos h5, if_neg (not_le.2 h5)]
          · rw [if_neg h5, if_pos (not_lt.1 h5)]
            by_cases h6 : m.rpm < 0
            · rw [if_pos h6, if_neg (not_le.2 h6)]
            · rw [if_neg h6, if_pos (not_lt.1 h6)]
              by_cases h7 : Motor.gearRatio m < 0
              · rw [if_pos h7, if_neg (not_le.2 h7)]
              · rw [if_neg h7, if_pos (not_lt.1 h7)]
                by_cases h8 : m.safetyFactor < 1
                · rw [if_pos h8, if_neg (not_le.2 h8)]
                · rw [if_neg h8, if_pos (not_lt.1 h8)]
                  rfl

theorem loopValidate_eq : ∀ (i : Nat) (ls : List Link) (ms : List Motor),
    loopValidate i ls ms = firstFailure (specLoopChecks i ls ms)
  | _, [], [] => rfl
  | _, [], _ :: _ => rfl
  | _, _ :: _, [] => rfl
  | i, l :: ls, m :: ms => by
    rw [show loopValidate i (l :: ls) (m :: ms) =
        (match checkIndex i l m with
         | some e => some e
         | none => loopValidate (i + 1) ls ms) from rfl,
      show specLoopChecks i (l :: ls) (m :: ms) =
        specIndexChecks i l m ++ specLoopChecks (i + 1) ls ms from rfl,
      firstFailure_append, ← checkIndex_eq]
    cases h : checkIndex i l m
    · simp [Option.orElse, loopValidate_eq (i + 1) ls ms]
    · simp [Option.orElse]

theorem perform_eq_specChecks (d : InputData) :
    performCalculations d =
      (match firstFailure (specChecks d) with
       | some m => Except.error m
       | none => Except.ok (computeResults d)) := by
  simp only [performCalculations, specChecks, List.cons_append, List.nil_append,
    firstFailure_cons]
  by_cases h1 : d.m_payload < 0
  · rw [if_pos h1, if_neg (not_le.2 h1)]
  · rw [if_neg h1, if_pos (not_lt.1 h1)]
    by_cases h2 : d.density < 0
    · rw [if_pos h2, if_neg (not_le.2 h2)]
    · rw [if_neg h2, if_pos (not_lt.1 h2)]
      by_cases h3 : d.links.length ≠ 6
      · rw [if_pos h3, if_neg h3]
      · rw [if_neg h3, if_pos (not_not.1 h3)]
        by_cases h4 : d.motors.length ≠ 6
        · rw [if_pos h4, if_neg h4]
        · rw [if_neg h4, if_pos (not_not.1 h4)]
          rw [← loopValidate_eq]

end RoboArm

namespace RoboArm

theorem list6 {α : Type} (l : List α) (h : l.length = 6) :
    ∃ a b c d e f, l = [a, b, c, d, e, f] := by
  obtain ⟨a, l, rfl⟩ := List.exists_of_length_succ l h
  simp only [List.length_cons, Nat.succ.injEq] at h
  obtain ⟨b, l, rfl⟩ := List.exists_of_length_succ l h
  simp only [List.length_cons, Nat.succ.injEq] at h
  obtain ⟨c, l, rfl⟩ := List.exists_of_length_succ l h
  simp only [List.length_cons, Nat.succ.injEq] at h
  obtain ⟨d, l, rfl⟩ := List.exists_of_length_succ l h
  simp only [List.length_cons, Nat.succ.injEq] at h
  obtain ⟨e, l, rfl⟩ := List.exists_of_length_succ l h
  simp only [List.length_cons, Nat.succ.injEq] at h
  obtain ⟨f, l, rfl⟩ := List.exists_of_length_succ l h
  simp only [List.length_cons, Nat.succ.injEq] at h
  rw [List.length_eq_zero] at h
  subst h
  exact ⟨a, b, c, d, e, f, rfl⟩

theorem checkIndex_none {i : Nat} {l : Link} {m : Motor}
    (h1 : 0 < l.length) (h2 : 0 < l.radius) (h3 : 0 ≤ m.mass) (h4 : 0 ≤ m.bodyLength)
    (h5 : 0 ≤ m.pivotPosition) (h6 : 0 ≤ m.rpm) (h7 : 0 ≤ Motor.gearRatio m)
    (h8 : 1 ≤ m.safetyFactor) :
    checkIndex i l m = none := by
  rw [checkIndex, if_neg (not_le.2 h1), if_neg (not_le.2 h2), if_neg (not_lt.2 h3),
    if_neg (not_lt.2 h4), if_neg (not_lt.2 h5), if_neg (not_lt.2 h6),
    if_neg (not_lt.2 h7), if_neg (not_lt.2 h8)]

theorem valid_ok {d : InputData} (h : validInput d) :
    performCalculations d = Except.ok (computeResults d) := by
  obtain ⟨h1, h2, h3, h4, h5⟩ := h
  rw [performCalculations, if_neg (not_lt.2 h1), if_neg (not_lt.2 h2),
    if_neg (not_not_intro h3), if_neg (not_not_intro h4)]
  obtain ⟨p, ρ, ls, ms⟩ := d
  obtain ⟨l0, l1, l2, l3, l4, l5, rfl⟩ := list6 ls h3
  obtain ⟨m0, m1, m2, m3, m4, m5, rfl⟩ := list6 ms h4
  have c0 := h5 0 (by norm_num)
  have c1 := h5 1 (by norm_num)
  have c2 := h5 2 (by norm_num)
  have c3 := h5 3 (by norm_num)
  have c4 := h5 4 (by norm_num)
  have c5 := h5 5 (by norm_num)
  simp only [Larr, rarr, mArr, aArr, MArr, rpmArr, Rarr, SFarr,
    List.getD_cons_zero, List.getD_cons_succ] at c0 c1 c2 c3 c4 c5
  rw [show loopValidate 0 [l0, l1, l2, l3, l4, l5] [m0, m1, m2, m3, m4, m5] =
      (match checkIndex 0 l0 m0 with
       | some e => some e
       | none => loopValidate 1 [l1, l2, l3, l4, l5] [m1, m2, m3, m4, m5]) from rfl,
    checkIndex_none c0.1 c0.2.1 c0.2.2.1 c0.2.2.2.1 c0.2.2.2.2.1 c0.2.2.2.2.2.1
      c0.2.2.2.2.2.2.1 c0.2.2.2.2.2.2.2]
  rw [show loopValidate 1 [l1, l2, l3, l4, l5] [m1, m2, m3, m4, m5] =
      (match checkIndex 1 l1 m1 with
       | some e => some e
       | none => loopValidate 2 [l2, l3, l4, l5] [m2, m3, m4, m5]) from rfl,
    checkIndex_none c1.1 c1.2.1 c1.2.2.1 c1.2.2.2.1 c1.2.2.2.2.1 c1.2.2.2.2.2.1
      c1.2.2.2.2.2.2.1 c1.2.2.2.2.2.2.2]
  rw [show loopValidate 2 [l2, l3, l4, l5] [m2, m3, m4, m5] =
      (match checkIndex 2 l2 m2 with
       | some e => some e
       | none => loopValidate 3 [l3, l4, l5] [m3, m4, m5]) from rfl,
    checkIndex_none c2.1 c2.2.1 c2.2.2.1 c2.2.2.2.1 c2.2.2.2.2.1 c2.2.2.2.2.2.1
      c2.2.2.2.2.2.2.1 c2.2.2.2.2.2.2.2]
  rw [show loopValidate 3 [l3, l4, l5] [m3, m4, m5] =
      (match checkIndex 3 l3 m3 with
       | some e => some e
       | none => loopValidate 4 [l4, l5] [m4, m5]) from rfl,
    checkIndex_none c3.1 c3.2.1 c3.2.2.1 c3.2.2.2.1 c3.2.2.2.2.1 c3.2.2.2.2.2.1
      c3.2.2.2.2.2.2.1 c3.2.2.2.2.2.2.2]
  rw [show loopValidate 4 [l4, l5] [m4, m5] =
      (match checkIndex 4 l4 m4 with
       | some e => some e
       | none => loopValidate 5 [l5] [m5]) from rfl,
    checkIndex_none c4.1 c4.2.1 c4.2.2.1 c4.2.2.2.1 c4.2.2.2.2.1 c4.2.2.2.2.2.1
      c4.2.2.2.2.2.2.1 c4.2.2.2.2.2.2.2]
  rw [show loopValidate 5 [l5] [m5] =
      (match checkIndex 5 l5 m5 with
       | some e => some e
       | none => loopValidate 6 [] []) from rfl,
    checkIndex_none c5.1 c5.2.1 c5.2.2.1 c5.2.2.2.1 c5.2.2.2.2.1 c5.2.2.2.2.2.1
      c5.2.2.2.2.2.2.1 c5.2.2.2.2.2.2.2]
  rfl

theorem ok_elim {d : InputData} {rs : List MotorResult}
    (h : performCalculations d = Except.ok rs) : rs = computeResults d := by
  rw [performCalculations] at h
  split_ifs at h
  cases hl : loopValidate 0 d.links d.motors <;> rw [hl] at h
  · exact (Except.ok.inj h).symm
  · exact absurd h (by simp)

end RoboArm

namespace RoboArm

theorem chStarts_append_self : ∀ (p rest : List Char), chStarts p (p ++ rest) = true
  | [], _ => rfl
  | a :: as, rest => by
    show (a == a && chStarts as (as ++ rest)) = true
    simp [chStarts_append_self as rest]

theorem chInfix_append_left : ∀ (xs ys p : List Char),
    chInfix p ys = true → chInfix p (xs ++ ys) = true
  | [], _, _, h => h
  | x :: xs, ys, p, h => by
    show (chStarts p (x :: (xs ++ ys)) || chInfix p (xs ++ ys)) = true
    rw [chInfix_append_left xs ys p h, Bool.or_true]

theorem chInfix_self_append : ∀ (p rest : List Char), chInfix p (p ++ rest) = true
  | [], [] => rfl
  | [], _ :: _ => by simp [chInfix, chStarts]
  | a :: as, rest => by
    show (chStarts (a :: as) (a :: (as ++ rest)) || chInfix (a :: as) (as ++ rest)) = true
    rw [show (a :: (as ++ rest) : List Char) = (a :: as) ++ rest from rfl,
      chStarts_append_self, Bool.true_or]

theorem strContains_append_right (s t pat : String) (h : chInfix pat.data t.data = true) :
    strContains (s ++ t) pat = true := by
  rw [strContains, String.data_append]
  exact chInfix_append_left _ _ _ h

theorem strContains_middle (s t u : String) : strContains (s ++ t ++ u) t = true := by
  rw [strContains, String.data_append, String.data_append, List.append_assoc]
  exact chInfix_append_left _ _ _ (chInfix_self_append _ _)

/-- The concrete scenario of spec section 8: payload 5 kg, density 2700,
links [(0.5,0.02),(0.4,0.02),(0.3,0.015),(0.3,0.015),(0.2,0.01),(0.1,0.01)],
motors (mass, bodyLength, pivot, rpm, gear ratio, safety factor) as listed. -/
def sampleInput : InputData :=
  ⟨5, 2700,
   [⟨mkRat 1 2, mkRat 1 50⟩, ⟨mkRat 2 5, mkRat 1 50⟩, ⟨mkRat 3 10, mkRat 3 200⟩,
    ⟨mkRat 3 10, mkRat 3 200⟩, ⟨mkRat 1 5, mkRat 1 100⟩, ⟨mkRat 1 10, mkRat 1 100⟩],
   [⟨2, mkRat 1 10, 0, 100, 10, mkRat 3 2⟩, ⟨mkRat 3 2, mkRat 2 25, mkRat 1 2, 120, 8, mkRat 3 2⟩,
    ⟨mkRat 6 5, mkRat 7 100, mkRat 9 10, 150, 6, mkRat 3 2⟩,
    ⟨1, mkRat 3 50, mkRat 6 5, 180, 5, mkRat 3 2⟩,
    ⟨mkRat 4 5, mkRat 1 20, mkRat 3 2, 200, 4, mkRat 3 2⟩,
    ⟨mkRat 1 2, mkRat 1 25, mkRat 17 10, 250, 3, mkRat 3 2⟩]⟩

end RoboArm

namespace RoboArm

theorem checkIndex_sf {i : Nat} {l : Link} {m : Motor}
    (h1 : 0 < l.length) (h2 : 0 < l.radius) (h3 : 0 ≤ m.mass) (h4 : 0 ≤ m.bodyLength)
    (h5 : 0 ≤ m.pivotPosition) (h6 : 0 ≤ m.rpm) (h7 : 0 ≤ Motor.gearRatio m)
    (h8 : m.safetyFactor < 1) :
    checkIndex i l m =
      some ("Motor " ++ toString (i + 1) ++ " safety factor must be at least 1") := by
  rw [checkIndex, if_neg (not_le.2 h1), if_neg (not_le.2 h2), if_neg (not_lt.2 h3),
    if_neg (not_lt.2 h4), if_neg (not_lt.2 h5), if_neg (not_lt.2 h6),
    if_neg (not_lt.2 h7), if_pos h8]

theorem loopValidate_sf : ∀ (ls : List Link) (ms : List Motor) (i k : Nat),
    k < ls.length → k < ms.length →
    (∀ t, t < k → checkIndex (i + t) (ls.getD t default) (ms.getD t default) = none) →
    0 < (ls.getD k default).length → 0 < (ls.getD k default).radius →
    0 ≤ (ms.getD k default).mass → 0 ≤ (ms.getD k default).bodyLength →
    0 ≤ (ms.getD k default).pivotPosition → 0 ≤ (ms.getD k default).rpm →
    0 ≤ Motor.gearRatio (ms.getD k default) → (ms.getD k default).safetyFactor < 1 →
    loopValidate i ls ms =
      some ("Motor " ++ toString (i + k + 1) ++ " safety factor must be at least 1")
  | [], _, _, k, hk, _, _, _, _, _, _, _, _, _, _ => absurd hk (Nat.not_lt_zero k)
  | _ :: _, [], _, k, _, hk, _, _, _, _, _, _, _, _, _ => absurd hk (Nat.not_lt_zero k)
  | l :: ls, m :: ms, i, 0, _, _, _, h1, h2, h3, h4, h5, h6, h7, h8 => by
    show (match checkIndex i l m with
          | some e => some e
          | none => loopValidate (i + 1) ls ms) =
        some ("Motor " ++ toString (i + 0 + 1) ++ " safety factor must be at least 1")
    simp only [List.getD_cons_zero] at h1 h2 h3 h4 h5 h6 h7 h8
    rw [checkIndex_sf h1 h2 h3 h4 h5 h6 h7 h8]
  | l :: ls, m :: ms, i, k + 1, hkl, hkm, hpre, h1, h2, h3, h4, h5, h6, h7, h8 => by
    have hnone : checkIndex i l m = none := by
      have := hpre 0 (by omega)
      simpa using this
    have ih := loopValidate_sf ls ms (i + 1) k (by simpa using hkl) (by simpa using hkm)
      (fun t ht => by
        have := hpre (t + 1) (by omega)
        rw [List.getD_cons_succ, List.getD_cons_succ] at this
        rw [show i + 1 + t = i + (t + 1) from by omega]
        exact this)
      (by simpa using h1) (by simpa using h2) (by simpa using h3) (by simpa using h4)
      (by simpa using h5) (by simpa using h6) (by simpa using h7) (by simpa using h8)
    show (match checkIndex i l m with
          | some e => some e
          | none => loopValidate (i + 1) ls ms) =
        some ("Motor " ++ toString (i + (k + 1) + 1) ++ " safety factor must be at least 1")
    rw [hnone, show i + (k + 1) + 1 = i + 1 + k + 1 from by omega]
    exact ih

end RoboArm

namespace RoboArm

def fiveLinkInput : InputData :=
  ⟨1, 1000, [⟨1, 1⟩, ⟨1, 1⟩, ⟨1, 1⟩, ⟨1, 1⟩, ⟨1, 1⟩],
   [⟨1, 1, 0, 100, 10, 2⟩, ⟨1, 1, 1, 100, 10, 2⟩, ⟨1, 1, 2, 100, 10, 2⟩,
    ⟨1, 1, 3, 100, 10, 2⟩, ⟨1, 1, 4, 100, 10, 2⟩, ⟨1, 1, 5, 100, 10, 2⟩]⟩

def badSFInput : InputData :=
  ⟨1, 1000, [⟨1, 1⟩, ⟨1, 1⟩, ⟨1, 1⟩, ⟨1, 1⟩, ⟨1, 1⟩, ⟨1, 1⟩],
   [⟨1, 1, 0, 100, 10, 2⟩, ⟨1, 1, 1, 100, 10, 2⟩, ⟨1, 1, 2, 100, 10, mkRat 9 10⟩,
    ⟨1, 1, 3, 100, 10, 2⟩, ⟨1, 1, 4, 100, 10, 2⟩, ⟨1, 1, 5, 100, 10, 2⟩]⟩

def pivotBeyondInput : InputData :=
  ⟨1, 1000, [⟨1, 1⟩, ⟨1, 1⟩, ⟨1, 1⟩, ⟨1, 1⟩, ⟨1, 1⟩, ⟨1, 1⟩],
   [⟨1, 1, 0, 0, 0, 1⟩, ⟨1, 1, 1, 0, 0, 1⟩, ⟨1, 1, 2, 0, 0, 1⟩,
    ⟨1, 1, 3, 0, 0, 1⟩, ⟨1, 1, 4, 0, 0, 1⟩, ⟨1, 1, 7, 0, 0, 1⟩]⟩

def cexInputA : InputData :=
  ⟨0, 0, [⟨1, 1⟩, ⟨1, 1⟩, ⟨1, 1⟩, ⟨1, 1⟩, ⟨1, 1⟩, ⟨1, 1⟩],
   [⟨1, 1, 0, 0, 0, 1⟩, ⟨1, 1, 1, 0, 0, 1⟩, ⟨1, 1, 2, 0, 0, 1⟩,
    ⟨1, 1, 3, 0, 0, 1⟩, ⟨1, 1, 4, 0, 0, 1⟩, ⟨1, 1, 6, 0, 0, 1⟩]⟩

def cexInputB : InputData :=
  ⟨1, 0, [⟨1, 1⟩, ⟨1, 1⟩, ⟨1, 1⟩, ⟨1, 1⟩, ⟨1, 1⟩, ⟨1, 1⟩],
   [⟨1, 1, 0, 0, 0, 1⟩, ⟨1, 1, 1, 0, 0, 1⟩, ⟨1, 1, 2, 0, 0, 1⟩,
    ⟨1, 1, 3, 0, 0, 1⟩, ⟨1, 1, 4, 0, 0, 1⟩, ⟨1, 1, 6, 0, 0, 1⟩]⟩

def zeroDensityInput : InputData :=
  ⟨1, 0, [⟨1, 1⟩, ⟨1, 1⟩, ⟨1, 1⟩, ⟨1, 1⟩, ⟨1, 1⟩, ⟨1, 1⟩],
   [⟨1, 1, 0, 100, 10, 2⟩, ⟨1, 1, 1, 100, 10, 2⟩, ⟨1, 1, 2, 100, 10, 2⟩,
    ⟨1, 1, 3, 100, 10, 2⟩, ⟨1, 1, 4, 100, 10, 2⟩, ⟨1, 1, 5, 100, 10, 2⟩]⟩

end RoboArm

namespace RoboArm

theorem T_total_eq (d : InputData) (j : Nat) (hj : j ≤ 5) :
    ((computeResults d).getD (5 - j) default).T_total = torqueTotalSpec d j := by
  rw [computeResults_eq]
  interval_cases j <;> rfl

/-- C1: for every input that passes validation, the torqueTotal returned for
joint j (at output position 5 - j) is the payload term plus the link terms for
k ≥ j plus the motor terms for k > j of spec step 5, with the spec's S, weights
and constants. -/
theorem c1_torque_formula (d : InputData) (rs : List MotorResult)
    (h : performCalculations d = Except.ok rs) (j : Nat) (hj : j ≤ 5) :
    (rs.getD (5 - j) default).T_total = torqueTotalSpec d j := by
  rw [ok_elim h]
  exact T_total_eq d j hj

/-- Witness for C1 at the spec's concrete scenario input, joint j = 5. -/
theorem c1_witness :
    ((computeResults sampleInput).getD 0 default).T_total = torqueTotalSpec sampleInput 5 :=
  c1_torque_formula sampleInput (computeResults sampleInput) (valid_ok (by decide)) 5
    (by decide)

/-- C2: every validated input yields exactly six results, ordered
end-effector-most joint (j = 5) first down to the base joint (j = 0). -/
theorem c2_results_order (d : InputData) (rs : List MotorResult)
    (h : performCalculations d = Except.ok rs) :
    rs.length = 6 ∧
      rs = [jointResult d 5, jointResult d 4, jointResult d 3, jointResult d 2,
            jointResult d 1, jointResult d 0] := by
  rw [ok_elim h, computeResults_eq]
  exact ⟨rfl, rfl⟩

/-- Witness for C2 at the spec's concrete scenario input. -/
theorem c2_witness :
    (computeResults sampleInput).length = 6 ∧
      computeResults sampleInput =
        [jointResult sampleInput 5, jointResult sampleInput 4, jointResult sampleInput 3,
         jointResult sampleInput 2, jointResult sampleInput 1, jointResult sampleInput 0] :=
  c2_results_order sampleInput (computeResults sampleInput) (valid_ok (by decide))

/-- C3: validation is fail-fast in the spec's exact order: the computation
returns the error message of the first failing check of the spec's ordered
check list, and the success value otherwise. -/
theorem c3_validation_failfast (d : InputData) :
    performCalculations d =
      (match firstFailure (specChecks d) with
       | some m => Except.error m
       | none => Except.ok (computeResults d)) :=
  perform_eq_specChecks d

/-- C5: on validated inputs the computation always succeeds; motor-side torque
is load torque over gear ratio when the ratio is nonzero and 0 otherwise, and
power is torqueBeforeGearing times rpm times 1000 over 9550 when rpm is nonzero
and 0 otherwise. -/
theorem c5_gearing_and_power (d : InputData) (h : validInput d) :
    performCalculations d = Except.ok (computeResults d) ∧
      ∀ j, j ≤ 5 →
        (Rarr d.motors j ≠ 0 →
            ((computeResults d).getD (5 - j) default).T_before =
              ((computeResults d).getD (5 - j) default).T_total / Rarr d.motors j) ∧
          (Rarr d.motors j = 0 → ((computeResults d).getD (5 - j) default).T_before = 0) ∧
          (rpmArr d.motors j ≠ 0 →
            ((computeResults d).getD (5 - j) default).P =
              ((computeResults d).getD (5 - j) default).T_before * rpmArr d.motors j *
                1000 / 9550) ∧
          (rpmArr d.motors j = 0 → ((computeResults d).getD (5 - j) default).P = 0) := by
  refine ⟨valid_ok h, ?_⟩
  intro j hj
  rw [computeResults_eq]
  interval_cases j <;>
    exact ⟨fun hR => by simp [jointResult, hR], fun hR => by simp [jointResult, hR],
      fun hr => by simp [jointResult, hr], fun hr => by simp [jointResult, hr]⟩

/-- Witness for C5 at the spec's concrete scenario input, joint j = 5 (whose
gear ratio is 3 and rpm is 250). -/
theorem c5_witness :
    performCalculations sampleInput = Except.ok (computeResults sampleInput) ∧
      ((computeResults sampleInput).getD 0 default).T_before =
        ((computeResults sampleInput).getD 0 default).T_total / Rarr sampleInput.motors 5 := by
  have h := c5_gearing_and_power sampleInput (by decide)
  exact ⟨h.1, ((h.2 5 (by decide)).1 (by decide))⟩

/-- C6: the three safety-factor fields are exact scalings of their base fields
by the joint's safety factor. -/
theorem c6_safety_factor_scaling (d : InputData) (rs : List MotorResult)
    (h : performCalculations d = Except.ok rs) (j : Nat) (hj : j ≤ 5) :
    (rs.getD (5 - j) default).T_sf = SFarr d.motors j * (rs.getD (5 - j) default).T_total ∧
      (rs.getD (5 - j) default).T_before_sf =
        SFarr d.motors j * (rs.getD (5 - j) default).T_before ∧
      (rs.getD (5 - j) default).P_sf = SFarr d.motors j * (rs.getD (5 - j) default).P := by
  rw [ok_elim h, computeResults_eq]
  interval_cases j <;> exact ⟨rfl, rfl, rfl⟩

/-- Witness for C6 at the spec's concrete scenario input, joint j = 5. -/
theorem c6_witness :
    ((computeResults sampleInput).getD 0 default).T_sf =
        SFarr sampleInput.motors 5 * ((computeResults sampleInput).getD 0 default).T_total ∧
      ((computeResults sampleInput).getD 0 default).T_before_sf =
        SFarr sampleInput.motors 5 * ((computeResults sampleInput).getD 0 default).T_before ∧
      ((computeResults sampleInput).getD 0 default).P_sf =
        SFarr sampleInput.motors 5 * ((computeResults sampleInput).getD 0 default).P :=
  c6_safety_factor_scaling sampleInput (computeResults sampleInput) (valid_ok (by decide)) 5
    (by decide)

/-- C8: the computation is a pure function of its input record: equal inputs
give equal outputs. -/
theorem c8_deterministic (d1 d2 : InputData) (h : d1 = d2) :
    performCalculations d1 = performCalculations d2 := by
  rw [h]

/-- Witness for C8 at the spec's concrete scenario input. -/
theorem c8_witness : performCalculations sampleInput = performCalculations sampleInput :=
  c8_deterministic sampleInput sampleInput rfl

end RoboArm

namespace RoboArm

/-- The payload-increased variant of the scenario input (payload 6 instead
of 5, everything else identical). -/
def sampleInputB : InputData :=
  ⟨6, 2700,
   [⟨mkRat 1 2, mkRat 1 50⟩, ⟨mkRat 2 5, mkRat 1 50⟩, ⟨mkRat 3 10, mkRat 3 200⟩,
    ⟨mkRat 3 10, mkRat 3 200⟩, ⟨mkRat 1 5, mkRat 1 100⟩, ⟨mkRat 1 10, mkRat 1 100⟩],
   [⟨2, mkRat 1 10, 0, 100, 10, mkRat 3 2⟩, ⟨mkRat 3 2, mkRat 2 25, mkRat 1 2, 120, 8, mkRat 3 2⟩,
    ⟨mkRat 6 5, mkRat 7 100, mkRat 9 10, 150, 6, mkRat 3 2⟩,
    ⟨1, mkRat 3 50, mkRat 6 5, 180, 5, mkRat 3 2⟩,
    ⟨mkRat 4 5, mkRat 1 20, mkRat 3 2, 200, 4, mkRat 3 2⟩,
    ⟨mkRat 1 2, mkRat 1 25, mkRat 17 10, 250, 3, mkRat 3 2⟩]⟩

/-- C4: missing a sixth link yields an error mentioning "6 links"; a safety
factor of 0.9 on motor i (with every earlier check passing) yields an error
mentioning "safety factor" and the 1-based index i + 1. -/
theorem c4_error_messages :
    (∀ d : InputData, 0 ≤ d.m_payload → 0 ≤ d.density → d.links.length = 5 →
      isErr (performCalculations d) = true ∧
        strContains (errMsgOf (performCalculations d)) "6 links" = true) ∧
    (∀ (d : InputData) (i : Nat), i < 6 → 0 ≤ d.m_payload → 0 ≤ d.density →
      d.links.length = 6 → d.motors.length = 6 →
      (∀ t, t < i →
        0 < Larr d.links t ∧ 0 < rarr d.links t ∧ 0 ≤ mArr d.motors t ∧
        0 ≤ aArr d.motors t ∧ 0 ≤ MArr d.motors t ∧ 0 ≤ rpmArr d.motors t ∧
        0 ≤ Rarr d.motors t ∧ 1 ≤ SFarr d.motors t) →
      0 < Larr d.links i → 0 < rarr d.links i → 0 ≤ mArr d.motors i →
      0 ≤ aArr d.motors i → 0 ≤ MArr d.motors i → 0 ≤ rpmArr d.motors i →
      0 ≤ Rarr d.motors i → SFarr d.motors i = mkRat 9 10 →
      isErr (performCalculations d) = true ∧
        strContains (errMsgOf (performCalculations d)) "safety factor" = true ∧
        strContains (errMsgOf (performCalculations d)) (toString (i + 1)) = true) := by
  constructor
  · intro d h1 h2 hlen
    have hperf : performCalculations d = Except.error "Exactly 6 links are required" := by
      rw [performCalculations, if_neg (not_lt.2 h1), if_neg (not_lt.2 h2),
        if_pos (show d.links.length ≠ 6 by rw [hlen]; decide)]
    refine ⟨by rw [hperf]; rfl, by rw [hperf]; decide⟩
  · intro d i hi h1 h2 h6l h6m hpre hl hr hm hb hp hrpm hR hsf
    have hsf1 : (d.motors.getD i default).safetyFactor < 1 := by
      have : SFarr d.motors i < 1 := by rw [hsf]; decide
      exact this
    have hloop : loopValidate 0 d.links d.motors =
        some ("Motor " ++ toString (0 + i + 1) ++ " safety factor must be at least 1") :=
      loopValidate_sf d.links d.motors 0 i (by rw [h6l]; exact hi) (by rw [h6m]; exact hi)
        (fun t ht => by
          rw [Nat.zero_add]
          have c := hpre t ht
          exact checkIndex_none c.1 c.2.1 c.2.2.1 c.2.2.2.1 c.2.2.2.2.1 c.2.2.2.2.2.1
            c.2.2.2.2.2.2.1 c.2.2.2.2.2.2.2)
        hl hr hm hb hp hrpm hR hsf1
    simp only [Nat.zero_add] at hloop
    have hperf : performCalculations d =
        Except.error ("Motor " ++ toString (i + 1) ++ " safety factor must be at least 1") := by
      rw [performCalculations, if_neg (not_lt.2 h1), if_neg (not_lt.2 h2),
        if_neg (not_not_intro h6l), if_neg (not_not_intro h6m), hloop]
    refine ⟨by rw [hperf]; rfl, ?_, ?_⟩
    · rw [hperf]
      exact strContains_append_right ("Motor " ++ toString (i + 1))
        " safety factor must be at least 1" "safety factor" (by decide)
    · rw [hperf]
      exact strContains_middle "Motor " (toString (i + 1)) " safety factor must be at least 1"

/-- Witness for C4: the five-link input errors mentioning "6 links"; the input
whose motor 3 has safety factor 0.9 errors mentioning "safety factor" and "3". -/
theorem c4_witness :
    (isErr (performCalculations fiveLinkInput) = true ∧
      strContains (errMsgOf (performCalculations fiveLinkInput)) "6 links" = true) ∧
      isErr (performCalculations badSFInput) = true ∧
      strContains (errMsgOf (performCalculations badSFInput)) "safety factor" = true ∧
      strContains (errMsgOf (performCalculations badSFInput)) (toString (2 + 1)) = true :=
  ⟨c4_error_messages.1 fiveLinkInput (by decide) (by decide) (by decide),
   c4_error_messages.2 badSFInput 2 (by decide) (by decide) (by decide) (by decide) (by decide)
     (by decide) (by decide) (by decide) (by decide) (by decide) (by decide) (by decide)
     (by decide) (by decide)⟩

end RoboArm

namespace RoboArm

/-- C7 counterexample: two validated inputs that differ only in payloadMass
(0 versus 1), with motor 6's pivot exactly at the arm tip S[5]; joint 5's
torqueTotal does not strictly increase. -/
theorem c7_counterexample :
    validInput cexInputA ∧ validInput cexInputB ∧
      cexInputB.links = cexInputA.links ∧ cexInputB.motors = cexInputA.motors ∧
      cexInputB.density = cexInputA.density ∧
      cexInputA.m_payload < cexInputB.m_payload ∧
      performCalculations cexInputA = Except.ok (computeResults cexInputA) ∧
      performCalculations cexInputB = Except.ok (computeResults cexInputB) ∧
      ¬(((computeResults cexInputA).getD 0 default).T_total <
          ((computeResults cexInputB).getD 0 default).T_total) := by
  refine ⟨by decide, by decide, by decide, by decide, by decide, by decide,
    valid_ok (by decide), valid_ok (by decide), ?_⟩
  have eA : ((computeResults cexInputA).getD 0 default).T_total =
      torqueTotalSpec cexInputA 5 := T_total_eq cexInputA 5 (by norm_num)
  have eB : ((computeResults cexInputB).getD 0 default).T_total =
      torqueTotalSpec cexInputB 5 := T_total_eq cexInputB 5 (by norm_num)
  rw [eA, eB, ← torque_code_eq_spec_5, ← torque_code_eq_spec_5]
  norm_num [W_P, W_L, g, pi, Sarr, Larr, rarr, MArr, cexInputA, cexInputB, List.getD]

/-- C7 amended: increasing only payloadMass strictly increases torqueTotal for
every joint whose pivotPosition lies strictly below the total arm length S[5]
(validation does not bound pivots by S[5], so the unrestricted claim fails). -/
theorem c7_payload_monotonic_amended (dA dB : InputData) (rsA rsB : List MotorResult)
    (hA : performCalculations dA = Except.ok rsA) (hB : performCalculations dB = Except.ok rsB)
    (hlinks : dB.links = dA.links) (hmotors : dB.motors = dA.motors)
    (hdens : dB.density = dA.density) (hp : dA.m_payload < dB.m_payload)
    (j : Nat) (hj : j ≤ 5) (hpiv : MArr dA.motors j < Sarr dA.links 5) :
    (rsA.getD (5 - j) default).T_total < (rsB.getD (5 - j) default).T_total := by
  rw [ok_elim hA, ok_elim hB, T_total_eq dA j hj, T_total_eq dB j hj,
    torqueTotalSpec, torqueTotalSpec, hlinks, hmotors, hdens]
  have hg : (0 : ℚ) < g := by norm_num [g]
  have key : W_P dA.m_payload * (Sarr dA.links 5 - MArr dA.motors j) <
      W_P dB.m_payload * (Sarr dA.links 5 - MArr dA.motors j) := by
    rw [W_P, W_P]
    exact mul_lt_mul_of_pos_right (mul_lt_mul_of_pos_left hp hg) (sub_pos.2 hpiv)
  linarith

/-- Witness for C7 amended: raising the scenario payload from 5 to 6 strictly
raises joint 5's torqueTotal (its pivot 1.7 is below S[5] = 1.8). -/
theorem c7_witness :
    ((computeResults sampleInput).getD 0 default).T_total <
      ((computeResults sampleInputB).getD 0 default).T_total :=
  c7_payload_monotonic_amended sampleInput sampleInputB
    (computeResults sampleInput) (computeResults sampleInputB)
    (valid_ok (by decide)) (valid_ok (by decide)) (by decide) (by decide) (by decide)
    (by decide) 5 (by decide)
    (by norm_num [Sarr, Larr, MArr, sampleInput, List.getD])

/-- C9: validation imposes no upper bound on pivot positions: there is a
validated input whose motor 6 pivot exceeds the total arm length S[5] and whose
first returned result has strictly negative torqueTotal. -/
theorem c9_pivot_unbounded :
    ∃ d : InputData, validInput d ∧ Sarr d.links 5 < MArr d.motors 5 ∧
      performCalculations d = Except.ok (computeResults d) ∧
      ((computeResults d).getD 0 default).T_total < 0 := by
  refine ⟨pivotBeyondInput, by decide,
    by norm_num [Sarr, Larr, MArr, pivotBeyondInput, List.getD], valid_ok (by decide), ?_⟩
  have e : ((computeResults pivotBeyondInput).getD 0 default).T_total =
      torqueTotalSpec pivotBeyondInput 5 := T_total_eq pivotBeyondInput 5 (by norm_num)
  rw [e, ← torque_code_eq_spec_5]
  norm_num [W_P, W_L, g, pi, Sarr, Larr, rarr, MArr, pivotBeyondInput, List.getD]

theorem sumLinks_zero (ls : List Link) (ms : List Motor) (j : Nat) :
    sumLinks 0 ls ms j = 0 := by
  rw [sumLinks]
  apply List.sum_eq_zero
  intro x hx
  obtain ⟨k, _, rfl⟩ := List.mem_map.1 hx
  rw [W_L]
  ring

/-- C10: a density of exactly 0 passes validation (the check rejects only
negatives), every link weight is then 0, and each joint's torqueTotal reduces
to the payload term plus the motor terms. -/
theorem c10_zero_density (d : InputData) (h : validInput d) (h0 : d.density = 0) :
    performCalculations d = Except.ok (computeResults d) ∧
      (∀ i, i < 6 → W_L d.density d.links i = 0) ∧
      ∀ j, j ≤ 5 →
        ((computeResults d).getD (5 - j) default).T_total =
          W_P d.m_payload * (Sarr d.links 5 - MArr d.motors j) + sumMotors d.motors j := by
  refine ⟨valid_ok h, fun i _ => by rw [h0, W_L]; ring, fun j hj => ?_⟩
  rw [T_total_eq d j hj, torqueTotalSpec, h0, sumLinks_zero]
  ring

/-- Witness for C10 at a zero-density input, joint j = 5. -/
theorem c10_witness :
    performCalculations zeroDensityInput = Except.ok (computeResults zeroDensityInput) ∧
      W_L zeroDensityInput.density zeroDensityInput.links 0 = 0 ∧
      ((computeResults zeroDensityInput).getD 0 default).T_total =
        W_P zeroDensityInput.m_payload *
            (Sarr zeroDensityInput.links 5 - MArr zeroDensityInput.motors 5) +
          sumMotors zeroDensityInput.motors 5 := by
  have h := c10_zero_density zeroDensityInput (by decide) (by decide)
  exact ⟨h.1, h.2.1 0 (by decide), h.2.2 5 (by decide)⟩

end RoboArm
